import Mathlib

/-!
Shallow embedding of the rtocBot repository (Go) in Lean 4.

Source files embedded:
- `check/check.go`: the lookup client (`CheckVehicle`), the result formatter
  (`FormatResult`), the vehicle-list parser (`ParseVehicles`), the daily
  scheduler trigger computation (`StartScheduler`) and the scheduled
  sequencer (`checkAllVehicles`).
- `cmd/bot/bot.go`: the on-demand `/check` loop.

Go strings are modelled as Lean `String` (the claims' inputs are ASCII, where
byte indexing and character indexing coincide); Go errors carry a dynamic
kind (the concrete type produced by `fmt.Errorf`: `errorString` when no `%w`
verb is used, `wrapError` otherwise) and a message string. Side-effecting
loops are modelled as functions from an abstract environment (the outcome of
each lookup and of each notification send) to the trace of observable events
(sleeps with their duration, lookup calls, notification sends).
-/

namespace Rtoc

/-! ### Constants from `check/check.go` -/

def timeoutSec : Nat := 30
def gapMinutes : Nat := 30
def startHour : Nat := 18
def startMin : Nat := 0

/-- The inter-vehicle sleep used by the on-demand `/check` handler in
`cmd/bot/bot.go` (`time.Sleep(10 * time.Minute)`), in minutes. -/
def onDemandGapMinutes : Nat := 10

/-! ### Data model (`check/check.go` struct definitions) -/

/-- `PendingTransaction` from `check/check.go`. -/
structure PendingTransaction where
  reference : String
  issuedDate : String
  operator : String
  vehicle : String
  licence : String
  location : String
  offence : String
  charge : String
  penalty : String
  status : String
  receipt : Option String
  payDate : Option String
  penDate : Option String
deriving DecidableEq, Repr

/-- `InspectionData` from `check/check.go`. -/
structure InspectionData where
  id : Int
  virNo : String
  finalResult : String
  inspector : String
  region : String
  district : String
  prohibitionOnUse : String
  weight : String
  licence : String
  driverName : String
  vehiclePassedFor : String
  inspectionDate : String
  validUntil : String
  noPlate : String
  reasonEN : String
  remarks : String
deriving DecidableEq, Repr

/-- `APIResponse` from `check/check.go`. -/
structure APIResponse where
  status : String
  totalPendingAmount : Option String
  pendingTransactions : List PendingTransaction
  inspectionData : List InspectionData
deriving DecidableEq, Repr

/-! ### Go errors

Every error in `check/check.go` is built with `fmt.Errorf`.  With no `%w`
verb the dynamic type is `*errors.errorString`; with a `%w` verb it is
`*fmt.wrapError`.  That dynamic type is the only "kind" information a Go
caller can dispatch on (besides the message text): no sentinel error values
and no custom error types are declared anywhere in the repository. -/

inductive GoErrorKind where
  | errorString
  | wrapError
deriving DecidableEq, Repr

structure GoError where
  kind : GoErrorKind
  msg : String
deriving DecidableEq, Repr

/-! ### `CheckVehicle` (`check/check.go`)

The network call itself is abstracted into an `HTTPOutcome`: either the POST
fails in transport, or a response with some status code arrives, in which
case the body decodes to an `APIResponse` or fails with a decode error
message (the body is only read in the 200 branch).  `json.Marshal` of a
`map[string]string` never fails, so the marshal branch is not represented. -/

inductive HTTPOutcome where
  | transportError (msg : String)
  | response (status : Nat) (body : Except String APIResponse)

/-- The message of the error returned on HTTP 429. -/
def rateLimitMsg : String :=
  "rate limited (429): too many requests, try again later"

/-- The status/decode dispatch of `CheckVehicle` (the `switch resp.StatusCode`):
`case http.StatusOK` (200): decode, wrapping a decode failure with
`decode response: %w`; `case http.StatusTooManyRequests` (429): the
rate-limit message; `default`: `unexpected status code: %d`.  A transport
failure of the POST is wrapped as `post request: %w`. -/
def checkVehicle (outcome : HTTPOutcome) : Except GoError APIResponse :=
  match outcome with
  | .transportError m => .error ⟨.wrapError, "post request: " ++ m⟩
  | .response status body =>
    if status = 200 then
      match body with
      | .ok result => .ok result
      | .error m => .error ⟨.wrapError, "decode response: " ++ m⟩
    else if status = 429 then
      .error ⟨.errorString, rateLimitMsg⟩
    else
      .error ⟨.errorString, "unexpected status code: " ++ toString status⟩

/-- The kind of the error returned, if any. -/
def errKindOf (r : Except GoError APIResponse) : Option GoErrorKind :=
  match r with
  | .error e => some e.kind
  | .ok _ => none

/-- The message of the error returned, if any. -/
def errMsgOf (r : Except GoError APIResponse) : Option String :=
  match r with
  | .error e => some e.msg
  | .ok _ => none

/-! ### `FormatResult` (`check/check.go`)

The Go function is a straight-line sequence of `fmt.Fprintf` calls on a
`strings.Builder`; each call appends its formatted text.  The embedding
mirrors that sequence with `++`. -/

/-- The two header lines written unconditionally at the top of the report. -/
def formatHeader (registration : String) : String :=
  "🚗 *RTOC Report for " ++ registration ++ "*\n" ++
  "━━━━━━━━━━━━━━━━━━━━━\n"

/-- One numbered pending-offence block (`i` is the 1-based `i+1` of the Go
loop). -/
def offenceBlock (i : Nat) (txn : PendingTransaction) : String :=
  "*" ++ toString i ++ ".* " ++ txn.offence ++ "\n" ++
  "   📍 " ++ txn.location ++ "\n" ++
  "   💰 Charge: " ++ txn.charge ++ " | Penalty: " ++ txn.penalty ++ "\n" ++
  "   🔖 Ref: " ++ txn.reference ++ "\n" ++
  "   📅 Issued: " ++ txn.issuedDate ++ "\n" ++
  "   📋 Status: " ++ txn.status ++ "\n\n"

/-- `if len(s) > 10 { s = s[:10] }` applied to the two inspection dates. -/
def truncate10 (s : String) : String :=
  if s.length > 10 then s.take 10 else s

/-- One numbered inspection block (`i` is the 1-based `i+1` of the Go
loop). -/
def inspectionBlock (i : Nat) (ins : InspectionData) : String :=
  "*" ++ toString i ++ ".* " ++ ins.reasonEN ++ " — *" ++ ins.finalResult ++ "*\n" ++
  "   📅 " ++ truncate10 ins.inspectionDate ++ " → " ++ truncate10 ins.validUntil ++ "\n" ++
  "   📍 " ++ ins.region ++ ", " ++ ins.district ++ "\n" ++
  (if ins.remarks ≠ "" then "   📝 " ++ ins.remarks ++ "\n" else "") ++
  "\n"

/-- Concatenation of the numbered blocks for a list, with 1-based numbers,
in list order. -/
def numberedBlocks {α : Type} (block : Nat → α → String) (items : List α) : String :=
  String.join (items.enum.map (fun p => block (p.1 + 1) p.2))

/-- `FormatResult` from `check/check.go`. -/
def formatResult (registration : String) (data : APIResponse) : String :=
  let header := formatHeader registration
  if data.status ≠ "success" then
    header ++ "❌ No results found.\n"
  else
    let offencesPart :=
      if data.pendingTransactions.length > 0 then
        "⚠️ *Pending Offences: " ++ toString data.pendingTransactions.length ++
          "* (Total: " ++ data.totalPendingAmount.getD "N/A" ++ " TZS)\n\n" ++
        numberedBlocks offenceBlock data.pendingTransactions
      else
        "✅ No pending offences.\n\n"
    let inspectionsPart :=
      if data.inspectionData.length > 0 then
        "🔍 *Inspection Records: " ++ toString data.inspectionData.length ++ "*\n\n" ++
        numberedBlocks inspectionBlock data.inspectionData
      else
        ""
    header ++ offencesPart ++ inspectionsPart

/-! ### `ParseVehicles` (`check/check.go`)

The Go standard-library collaborators `strings.Split` (with the one-rune
separator `","`), `strings.TrimSpace` and `strings.ToUpper` are embedded as
structurally recursive functions on the character list of a `String`, with
their documented semantics. -/

/-- `strings.Split(s, ",")`: the accumulated current segment is kept in
reverse; a comma flushes it.  The final segment is always emitted, so the
result is never empty and splitting `""` gives `[""]`, as in Go. -/
def splitCommaAux : List Char → List Char → List String
  | [], acc => [⟨acc.reverse⟩]
  | c :: cs, acc =>
    if c = ',' then ⟨acc.reverse⟩ :: splitCommaAux cs []
    else splitCommaAux cs (c :: acc)

def splitComma (s : String) : List String :=
  splitCommaAux s.data []

/-- `strings.TrimSpace(s)`: drop whitespace from both ends. -/
def trimSpace (s : String) : String :=
  ⟨((s.data.dropWhile Char.isWhitespace).reverse.dropWhile Char.isWhitespace).reverse⟩

/-- `strings.ToUpper(s)`: uppercase every character. -/
def toUpperStr (s : String) : String :=
  ⟨s.data.map Char.toUpper⟩

/-- The body of the `for _, p := range parts` loop of `ParseVehicles`: trim
each part (`v := strings.TrimSpace(p)`), skip it if empty, otherwise append
its uppercasing. -/
def parseLoop : List String → List String
  | [] => []
  | p :: rest =>
    if trimSpace p ≠ "" then toUpperStr (trimSpace p) :: parseLoop rest
    else parseLoop rest

/-- `ParseVehicles` from `check/check.go`: split on `","`, then run the
accumulating loop. -/
def parseVehicles (vehicles : String) : List String :=
  parseLoop (splitComma vehicles)

/-! ### Scheduler trigger computation (`StartScheduler`, `check/check.go`)

Time is modelled as a count of seconds on the civil timeline of the fixed
zone `time.FixedZone("EAT", 3*60*60)` (UTC+3, no daylight saving), so that a
calendar day is exactly `86400` seconds and `time.Date(y, m, d, 18, 0, 0, 0,
eat)` is the start of `now`'s day plus `18*3600` seconds.  `now.After(next)`
is the strict comparison `next < now`, and `next.Add(24 * time.Hour)` adds
`86400` seconds. -/

def secondsPerDay : Nat := 86400

/-- `time.Date(now.Year(), now.Month(), now.Day(), startHour, startMin, 0, 0, eat)`:
today's 18:00 on the fixed-offset civil timeline. -/
def todayTarget (now : Nat) : Nat :=
  (now / secondsPerDay) * secondsPerDay + startHour * 3600 + startMin * 60

/-- The body of `StartScheduler`'s trigger computation: `next` starts as
today's 18:00 and is rolled forward one day (`next.Add(24 * time.Hour)`)
when `now.After(next)`. -/
def nextTrigger (now : Nat) : Nat :=
  if todayTarget now < now then todayTarget now + 24 * 3600 else todayTarget now

/-! ### The scheduled sequencer (`checkAllVehicles`, `check/check.go`) and
the on-demand loop (`cmd/bot/bot.go`)

Both loops are modelled as trace producers.  An `Env` gives the outcome of
each upstream lookup (`CheckVehicle`'s result for a registration) and of
each notification send (`nil` error mapped to `none`).  An `Event` is one
observable action: a sleep with its duration in seconds, a lookup call, or
a notification send carrying the text and the sink's outcome (which the code
only logs). -/

structure Env where
  lookup : String → Except GoError APIResponse
  notify : String → Option GoError

inductive Event where
  | sleep (seconds : Nat)
  | lookup (registration : String)
  | notifySend (text : String) (result : Option GoError)
deriving DecidableEq

/-- The error text built by both loops on a failed lookup:
`"❌ Failed to check *%s*: %s"` with the registration and `err.Error()`. -/
def errMsg (registration : String) (e : GoError) : String :=
  "❌ Failed to check *" ++ registration ++ "*: " ++ e.msg

/-- The per-vehicle body shared by both loops: call the lookup; on failure
send the error text to the sink, on success format and send the report.  The
sink's own outcome is recorded but changes nothing else (`notifyErr` is only
logged in the Go code). -/
def checkOne (env : Env) (registration : String) : List Event :=
  match env.lookup registration with
  | .error e =>
    [.lookup registration,
     .notifySend (errMsg registration e) (env.notify (errMsg registration e))]
  | .ok data =>
    [.lookup registration,
     .notifySend (formatResult registration data)
       (env.notify (formatResult registration data))]

/-- The `for i, reg := range vehicles` loop of `checkAllVehicles`: sleep
`gapMinutes` minutes when `i > 0`, then run the per-vehicle body. -/
def checkLoop (env : Env) : List String → Nat → List Event
  | [], _ => []
  | reg :: rest, i =>
    (if i > 0 then [Event.sleep (gapMinutes * 60)] else []) ++
    checkOne env reg ++ checkLoop env rest (i + 1)

/-- `checkAllVehicles` from `check/check.go` as a trace producer. -/
def checkAllVehicles (env : Env) (vehicles : List String) : List Event :=
  checkLoop env vehicles 0

/-- The `for i, reg := range registrations` goroutine body of the `/check`
command handler in `cmd/bot/bot.go`: sleep `10 * time.Minute` when `i > 0`,
then look the vehicle up and send either the error text or the formatted
report (the same texts as the scheduled path builds). -/
def onDemandLoop (env : Env) : List String → Nat → List Event
  | [], _ => []
  | reg :: rest, i =>
    (if i > 0 then [Event.sleep (onDemandGapMinutes * 60)] else []) ++
    checkOne env reg ++ onDemandLoop env rest (i + 1)

/-- The on-demand `/check` batch from `cmd/bot/bot.go` as a trace producer. -/
def onDemandCheck (env : Env) (registrations : List String) : List Event :=
  onDemandLoop env registrations 0

/-- The registrations looked up in a trace, in order. -/
def lookupRegs (trace : List Event) : List String :=
  trace.filterMap (fun e => match e with | .lookup r => some r | _ => none)

/-- The durations (in seconds) of the sleeps in a trace, in order. -/
def sleepDurations (trace : List Event) : List Nat :=
  trace.filterMap (fun e => match e with | .sleep d => some d | _ => none)

/-! ### Concrete inputs used by the witnesses -/

/-- A concrete pending offence (the spec's §8 example record). -/
def txnW : PendingTransaction :=
  { reference := "R1", issuedDate := "2024-01-01", operator := "TP",
    vehicle := "T945CAP", licence := "L1", location := "Dar",
    offence := "Speeding", charge := "10000", penalty := "20000",
    status := "UNPAID", receipt := none, payDate := none, penDate := none }

/-- A concrete inspection record with over-long ISO-8601 timestamp dates. -/
def inspW : InspectionData :=
  { id := 1, virNo := "VIR001", finalResult := "PASSED", inspector := "J. Doe",
    region := "Dar es Salaam", district := "Ilala", prohibitionOnUse := "NO",
    weight := "1200", licence := "L123", driverName := "A. Driver",
    vehiclePassedFor := "Private", inspectionDate := "2024-03-05T10:00:00Z",
    validUntil := "2025-03-05T10:00:00Z", noPlate := "T945CAP",
    reasonEN := "Annual inspection", remarks := "" }

/-- A successful response with no pending offences and one inspection
record. -/
def inspRespW : APIResponse := ⟨"success", none, [], [inspW]⟩

/-- A non-success response that nevertheless carries pending transactions
and inspection records. -/
def dataFailW : APIResponse := ⟨"failed", some "20000", [txnW], [inspW]⟩

/-- An environment where the first configured vehicle succeeds with an
empty report and every other lookup fails with a generic error. -/
def envW : Env :=
  { lookup := fun r =>
      if r = "T945CAP" then .ok ⟨"success", none, [], []⟩
      else .error ⟨.errorString, "unexpected status code: 500"⟩,
    notify := fun _ => none }

/-- An environment where every lookup is rate-limited and the notification
sink itself fails on every send. -/
def envFailW : Env :=
  { lookup := fun _ => .error ⟨.errorString, rateLimitMsg⟩,
    notify := fun _ => some ⟨.errorString, "send failed"⟩ }

/-! ### Helper lemmas -/

lemma lookupRegs_append (t₁ t₂ : List Event) :
    lookupRegs (t₁ ++ t₂) = lookupRegs t₁ ++ lookupRegs t₂ :=
  List.filterMap_append ..

lemma sleepDurations_append (t₁ t₂ : List Event) :
    sleepDurations (t₁ ++ t₂) = sleepDurations t₁ ++ sleepDurations t₂ :=
  List.filterMap_append ..

lemma lookupRegs_checkOne (env : Env) (reg : String) :
    lookupRegs (checkOne env reg) = [reg] := by
  unfold checkOne lookupRegs
  cases env.lookup reg <;> simp

lemma sleepDurations_checkOne (env : Env) (reg : String) :
    sleepDurations (checkOne env reg) = [] := by
  unfold checkOne sleepDurations
  cases env.lookup reg <;> simp

lemma lookupRegs_checkLoop (env : Env) (vs : List String) (i : Nat) :
    lookupRegs (checkLoop env vs i) = vs := by
  induction vs generalizing i with
  | nil => rfl
  | cons v rest ih =>
    rw [checkLoop, lookupRegs_append, lookupRegs_append, lookupRegs_checkOne, ih]
    split <;> simp [lookupRegs]

lemma sleepDurations_checkLoop_pos (env : Env) (vs : List String) (i : Nat) (hi : 0 < i) :
    sleepDurations (checkLoop env vs i) = List.replicate vs.length (gapMinutes * 60) := by
  induction vs generalizing i with
  | nil => rfl
  | cons v rest ih =>
    rw [checkLoop, sleepDurations_append, sleepDurations_append, sleepDurations_checkOne,
      ih (i + 1) (by omega), if_pos hi]
    simp [sleepDurations, List.replicate]

lemma sleepDurations_checkAll (env : Env) (vs : List String) :
    sleepDurations (checkAllVehicles env vs) = List.replicate (vs.length - 1) (gapMinutes * 60) := by
  cases vs with
  | nil => rfl
  | cons v rest =>
    rw [checkAllVehicles, checkLoop, sleepDurations_append, sleepDurations_append,
      sleepDurations_checkOne, sleepDurations_checkLoop_pos env rest 1 (by omega)]
    simp [sleepDurations]

lemma sleepDurations_onDemandLoop_pos (env : Env) (vs : List String) (i : Nat) (hi : 0 < i) :
    sleepDurations (onDemandLoop env vs i) = List.replicate vs.length (onDemandGapMinutes * 60) := by
  induction vs generalizing i with
  | nil => rfl
  | cons v rest ih =>
    rw [onDemandLoop, sleepDurations_append, sleepDurations_append, sleepDurations_checkOne,
      ih (i + 1) (by omega), if_pos hi]
    simp [sleepDurations, List.replicate]

lemma sleepDurations_onDemand (env : Env) (vs : List String) :
    sleepDurations (onDemandCheck env vs) =
      List.replicate (vs.length - 1) (onDemandGapMinutes * 60) := by
  cases vs with
  | nil => rfl
  | cons v rest =>
    rw [onDemandCheck, onDemandLoop, sleepDurations_append, sleepDurations_append,
      sleepDurations_checkOne, sleepDurations_onDemandLoop_pos env rest 1 (by omega)]
    simp [sleepDurations]

lemma lookup_mem_checkOne (env : Env) (reg : String) :
    Event.lookup reg ∈ checkOne env reg := by
  unfold checkOne
  cases env.lookup reg <;> simp

lemma notify_mem_checkOne (env : Env) (reg : String) (e : GoError)
    (he : env.lookup reg = .error e) :
    Event.notifySend (errMsg reg e) (env.notify (errMsg reg e)) ∈ checkOne env reg := by
  unfold checkOne
  rw [he]
  simp

lemma mem_checkLoop (env : Env) (vs : List String) (j i : Nat) (h : i < vs.length) :
    Event.lookup (vs.get ⟨i, h⟩) ∈ checkLoop env vs j ∧
    (∀ e : GoError, env.lookup (vs.get ⟨i, h⟩) = .error e →
      Event.notifySend (errMsg (vs.get ⟨i, h⟩) e)
        (env.notify (errMsg (vs.get ⟨i, h⟩) e)) ∈ checkLoop env vs j) := by
  induction vs generalizing i j with
  | nil => exact absurd h (by simp)
  | cons v rest ih =>
    cases i with
    | zero =>
      refine ⟨?_, fun e he => ?_⟩
      · rw [checkLoop]
        exact List.mem_append_left _ (List.mem_append_right _ (lookup_mem_checkOne env v))
      · rw [checkLoop]
        exact List.mem_append_left _ (List.mem_append_right _ (notify_mem_checkOne env v e he))
    | succ k =>
      have hk : k < rest.length := by simpa using h
      refine ⟨?_, fun e he => ?_⟩
      · rw [checkLoop]
        exact List.mem_append_right _ ((ih (j + 1) k hk).1)
      · rw [checkLoop]
        exact List.mem_append_right _ ((ih (j + 1) k hk).2 e he)

lemma formatResult_fail (reg : String) (data : APIResponse) (h : data.status ≠ "success") :
    formatResult reg data = formatHeader reg ++ "❌ No results found.\n" := by
  unfold formatResult
  rw [if_pos h]

lemma formatResult_empty (reg : String) (data : APIResponse)
    (hs : data.status = "success") (hp : data.pendingTransactions = [])
    (hi : data.inspectionData = []) :
    formatResult reg data = formatHeader reg ++ "✅ No pending offences.\n\n" := by
  unfold formatResult
  rw [if_neg (by simp [hs]), hp, hi]
  simp

lemma unexpected_ne_rateLimit (s : Nat) :
    "unexpected status code: " ++ toString s ≠ rateLimitMsg := by
  intro h
  have hd := congrArg String.data h
  rw [String.data_append] at hd
  have hd' : 'u' :: ("nexpected status code: ".data ++ (toString s).data)
      = 'r' :: "ate limited (429): too many requests, try again later".data := hd
  injection hd' with h1 _
  exact absurd h1 (by decide)

lemma post_ne_rateLimit (m : String) :
    "post request: " ++ m ≠ rateLimitMsg := by
  intro h
  have hd := congrArg String.data h
  rw [String.data_append] at hd
  have hd' : 'p' :: ("ost request: ".data ++ m.data)
      = 'r' :: "ate limited (429): too many requests, try again later".data := hd
  injection hd' with h1 _
  exact absurd h1 (by decide)

lemma decode_ne_rateLimit (m : String) :
    "decode response: " ++ m ≠ rateLimitMsg := by
  intro h
  have hd := congrArg String.data h
  rw [String.data_append] at hd
  have hd' : 'd' :: ("ecode response: ".data ++ m.data)
      = 'r' :: "ate limited (429): too many requests, try again later".data := hd
  injection hd' with h1 _
  exact absurd h1 (by decide)

lemma parseLoop_eq (parts : List String) :
    parseLoop parts =
      ((parts.map trimSpace).filter (fun v => v != "")).map toUpperStr := by
  induction parts with
  | nil => rfl
  | cons p rest ih =>
    rw [parseLoop, ih]
    by_cases hv : trimSpace p = "" <;> simp [List.filter_cons, hv]

/-! ### The claims -/

/-- C1: for every configured vehicle list with `n > 1` elements, one run of
the scheduled sequencer `checkAllVehicles` issues exactly `n` lookup calls —
one `CheckVehicle` per list element, in list order — and performs exactly
`n - 1` cooldown sleeps, regardless of the outcome of each lookup and of
each notification send (the environment is arbitrary). -/
theorem C1_sequencer_call_and_sleep_counts (env : Env) (vehicles : List String)
    (n : Nat) (hlen : vehicles.length = n) (_hn : 1 < n) :
    lookupRegs (checkAllVehicles env vehicles) = vehicles ∧
    (lookupRegs (checkAllVehicles env vehicles)).length = n ∧
    (sleepDurations (checkAllVehicles env vehicles)).length = n - 1 := by
  have hl : lookupRegs (checkAllVehicles env vehicles) = vehicles :=
    lookupRegs_checkLoop env vehicles 0
  refine ⟨hl, by rw [hl, hlen], ?_⟩
  rw [sleepDurations_checkAll, List.length_replicate, hlen]

/-- Witness for C1 at the two-vehicle list `["T945CAP", "T267DFF"]` under an
environment where the first lookup succeeds and the second fails. -/
theorem C1_sequencer_call_and_sleep_counts_witness :
    (["T945CAP", "T267DFF"] : List String).length = 2 ∧ 1 < 2 ∧
    lookupRegs (checkAllVehicles envW ["T945CAP", "T267DFF"]) = ["T945CAP", "T267DFF"] ∧
    (lookupRegs (checkAllVehicles envW ["T945CAP", "T267DFF"])).length = 2 ∧
    (sleepDurations (checkAllVehicles envW ["T945CAP", "T267DFF"])).length = 2 - 1 :=
  ⟨rfl, by decide,
   (C1_sequencer_call_and_sleep_counts envW ["T945CAP", "T267DFF"] 2 rfl (by decide)).1,
   (C1_sequencer_call_and_sleep_counts envW ["T945CAP", "T267DFF"] 2 rfl (by decide)).2.1,
   (C1_sequencer_call_and_sleep_counts envW ["T945CAP", "T267DFF"] 2 rfl (by decide)).2.2⟩

/-- C2 (counterexample to the claim as stated): when `now` is exactly 18:00:00
on the fixed-offset civil timeline (second 64800 of a day), the computed
trigger equals `now` itself — it is not strictly after `now`, because the
roll-over condition `now.After(next)` is a strict comparison. -/
theorem C2_counterexample :
    nextTrigger 64800 = 64800 ∧ ¬ 64800 < nextTrigger 64800 := by decide

/-- C2 (amended): for every current time `now`, the scheduler's computed
trigger is the occurrence of 18:00 (fixed UTC+3 civil time) at-or-after
`now`: it always falls on an 18:00 boundary and is never earlier than `now`;
if `now` is strictly past today's 18:00 the target is 18:00 of the next
calendar day, if `now` is strictly before today's 18:00 the target is 18:00
of the same day, and in the remaining boundary case (`now` exactly 18:00)
the target equals `now` itself. -/
theorem C2_next_trigger_amended (now : Nat) :
    now ≤ nextTrigger now ∧
    nextTrigger now % secondsPerDay = startHour * 3600 + startMin * 60 ∧
    (todayTarget now < now → nextTrigger now = todayTarget now + secondsPerDay) ∧
    (now < todayTarget now → nextTrigger now = todayTarget now) ∧
    (now = todayTarget now → nextTrigger now = now) := by
  unfold nextTrigger todayTarget secondsPerDay startHour startMin
  split <;> refine ⟨by omega, by omega, by omega, by omega, by omega⟩

/-- Witness for C2 at the spec's own two example times on day 0 of the civil
timeline: 19:00 (second 68400) rolls to 18:00 the next day, and 17:00
(second 61200) targets 18:00 the same day. -/
theorem C2_next_trigger_amended_witness :
    todayTarget 68400 < 68400 ∧ nextTrigger 68400 = todayTarget 68400 + secondsPerDay ∧
    61200 < todayTarget 61200 ∧ nextTrigger 61200 = todayTarget 61200 :=
  ⟨by decide, (C2_next_trigger_amended 68400).2.2.1 (by decide),
   by decide, (C2_next_trigger_amended 61200).2.2.2.1 (by decide)⟩

/-- C3 (counterexample to the claim as stated): the HTTP 429 error and the
generic non-200 error (here status 500) carry the same dynamic error kind —
both are bare `fmt.Errorf` results of kind `errorString`, with no sentinel
value or dedicated type — so they are not distinguishable by error kind. -/
theorem C3_counterexample :
    errKindOf (checkVehicle (.response 429 (.error "boom"))) = some .errorString ∧
    errKindOf (checkVehicle (.response 500 (.error "boom"))) = some .errorString ∧
    errKindOf (checkVehicle (.response 429 (.error "boom"))) =
      errKindOf (checkVehicle (.response 500 (.error "boom"))) := by decide

/-- C3 (amended): a lookup receiving HTTP 429 returns the dedicated
rate-limit error, whose message is distinct from the message of every
generic failure — every other non-200 status, every transport error and
every decode error — so the condition is distinguishable by message text
(though not by error kind). -/
theorem C3_rate_limit_message_amended (s : Nat) (b b' : Except String APIResponse)
    (m m' : String) (hs200 : s ≠ 200) (hs429 : s ≠ 429) :
    checkVehicle (.response 429 b) = .error ⟨.errorString, rateLimitMsg⟩ ∧
    errMsgOf (checkVehicle (.response s b')) ≠ some rateLimitMsg ∧
    errMsgOf (checkVehicle (.transportError m)) ≠ some rateLimitMsg ∧
    errMsgOf (checkVehicle (.response 200 (.error m'))) ≠ some rateLimitMsg := by
  refine ⟨by simp [checkVehicle], ?_, ?_, ?_⟩
  · have hmsg : errMsgOf (checkVehicle (.response s b')) =
        some ("unexpected status code: " ++ toString s) := by
      simp [checkVehicle, errMsgOf, hs200, hs429]
    rw [hmsg]
    simpa using unexpected_ne_rateLimit s
  · simpa [checkVehicle, errMsgOf] using post_ne_rateLimit m
  · simpa [checkVehicle, errMsgOf] using decode_ne_rateLimit m'

/-- Witness for C3 at status 500 with concrete bodies and messages. -/
theorem C3_rate_limit_message_amended_witness :
    (500 : Nat) ≠ 200 ∧ (500 : Nat) ≠ 429 ∧
    checkVehicle (.response 429 (.error "boom")) = .error ⟨.errorString, rateLimitMsg⟩ ∧
    errMsgOf (checkVehicle (.response 500 (.error "boom"))) ≠ some rateLimitMsg ∧
    errMsgOf (checkVehicle (.transportError "connection refused")) ≠ some rateLimitMsg ∧
    errMsgOf (checkVehicle (.response 200 (.error "invalid character"))) ≠ some rateLimitMsg :=
  ⟨by decide, by decide,
   (C3_rate_limit_message_amended 500 (.error "boom") (.error "boom")
     "connection refused" "invalid character" (by decide) (by decide)).1,
   (C3_rate_limit_message_amended 500 (.error "boom") (.error "boom")
     "connection refused" "invalid character" (by decide) (by decide)).2.1,
   (C3_rate_limit_message_amended 500 (.error "boom") (.error "boom")
     "connection refused" "invalid character" (by decide) (by decide)).2.2.1,
   (C3_rate_limit_message_amended 500 (.error "boom") (.error "boom")
     "connection refused" "invalid character" (by decide) (by decide)).2.2.2⟩

/-- C4: for every environment (arbitrary lookup outcomes and arbitrary
notification-sink outcomes) and every position in the vehicle list, the
sequencer still issues that vehicle's lookup — no earlier per-vehicle error
and no notification-sink failure aborts the remaining sweep — and whenever
a lookup fails its error is converted to the user-visible message
`❌ Failed to check *REG*: <error>` and forwarded to the notification sink. -/
theorem C4_per_vehicle_error_isolation (env : Env) (vehicles : List String)
    (i : Nat) (h : i < vehicles.length) :
    Event.lookup (vehicles.get ⟨i, h⟩) ∈ checkAllVehicles env vehicles ∧
    (∀ e : GoError, env.lookup (vehicles.get ⟨i, h⟩) = .error e →
      Event.notifySend (errMsg (vehicles.get ⟨i, h⟩) e)
        (env.notify (errMsg (vehicles.get ⟨i, h⟩) e)) ∈ checkAllVehicles env vehicles) :=
  mem_checkLoop env vehicles 0 i h

/-- Witness for C4: under an environment where every lookup is rate-limited
and every notification send itself fails, the single vehicle is still looked
up and the rate-limit error message is still forwarded to the sink. -/
theorem C4_per_vehicle_error_isolation_witness :
    0 < (["T945CAP"] : List String).length ∧
    Event.lookup "T945CAP" ∈ checkAllVehicles envFailW ["T945CAP"] ∧
    Event.notifySend (errMsg "T945CAP" ⟨.errorString, rateLimitMsg⟩)
      (some ⟨.errorString, "send failed"⟩) ∈ checkAllVehicles envFailW ["T945CAP"] :=
  ⟨by decide,
   (C4_per_vehicle_error_isolation envFailW ["T945CAP"] 0 (by decide)).1,
   (C4_per_vehicle_error_isolation envFailW ["T945CAP"] 0 (by decide)).2
     ⟨.errorString, rateLimitMsg⟩ rfl⟩

/-- C5: the scheduled sweep sleeps a fixed 30-minute cooldown before each
vehicle except the first, while the on-demand `/check` path sleeps a
separate fixed 10-minute cooldown between vehicles — two different fixed
intervals for the same sequential-check-with-delay operation. -/
theorem C5_divergent_cooldowns (env : Env) (vehicles registrations : List String) :
    sleepDurations (checkAllVehicles env vehicles) =
      List.replicate (vehicles.length - 1) (gapMinutes * 60) ∧
    sleepDurations (onDemandCheck env registrations) =
      List.replicate (registrations.length - 1) (onDemandGapMinutes * 60) ∧
    gapMinutes = 30 ∧ onDemandGapMinutes = 10 ∧ gapMinutes ≠ onDemandGapMinutes :=
  ⟨sleepDurations_checkAll env vehicles, sleepDurations_onDemand env registrations,
   rfl, rfl, by decide⟩

/-- C6: for every registration and every decoded response whose status is
not `"success"`, the formatter output is exactly the report header followed
by the `No results found` marker line — so it contains the marker and, in
particular, no offence block and no inspection block — regardless of any
pending transactions or inspection records present in the response. -/
theorem C6_no_results_marker (reg : String) (data : APIResponse)
    (h : data.status ≠ "success") :
    formatResult reg data = formatHeader reg ++ "❌ No results found.\n" ∧
    "No results found.".data <:+: (formatResult reg data).data := by
  refine ⟨formatResult_fail reg data h, ?_⟩
  rw [formatResult_fail reg data h, String.data_append]
  exact List.IsInfix.trans (by decide) (List.suffix_append _ _).isInfix

/-- Witness for C6 at a failed response that carries one pending transaction
and one inspection record. -/
theorem C6_no_results_marker_witness :
    dataFailW.status ≠ "success" ∧ dataFailW.pendingTransactions ≠ [] ∧
    dataFailW.inspectionData ≠ [] ∧
    formatResult "T945CAP" dataFailW = formatHeader "T945CAP" ++ "❌ No results found.\n" ∧
    "No results found.".data <:+: (formatResult "T945CAP" dataFailW).data :=
  ⟨by decide, by decide, by decide,
   (C6_no_results_marker "T945CAP" dataFailW (by decide)).1,
   (C6_no_results_marker "T945CAP" dataFailW (by decide)).2⟩

/-- C7: for every registration and every decoded response with status
`"success"`, no pending transactions and no inspection records, the
formatter output is exactly the report header followed by the
`No pending offences` marker line — so it contains the marker and no
numbered block. -/
theorem C7_no_pending_offences_marker (reg : String) (data : APIResponse)
    (hs : data.status = "success") (hp : data.pendingTransactions = [])
    (hi : data.inspectionData = []) :
    formatResult reg data = formatHeader reg ++ "✅ No pending offences.\n\n" ∧
    "No pending offences.".data <:+: (formatResult reg data).data := by
  refine ⟨formatResult_empty reg data hs hp hi, ?_⟩
  rw [formatResult_empty reg data hs hp hi, String.data_append]
  exact List.IsInfix.trans (by decide) (List.suffix_append _ _).isInfix

/-- Witness for C7 at the empty successful response. -/
theorem C7_no_pending_offences_marker_witness :
    (⟨"success", none, [], []⟩ : APIResponse).status = "success" ∧
    formatResult "T945CAP" ⟨"success", none, [], []⟩ =
      formatHeader "T945CAP" ++ "✅ No pending offences.\n\n" ∧
    "No pending offences.".data <:+: (formatResult "T945CAP" ⟨"success", none, [], []⟩).data :=
  ⟨rfl,
   (C7_no_pending_offences_marker "T945CAP" ⟨"success", none, [], []⟩ rfl rfl rfl).1,
   (C7_no_pending_offences_marker "T945CAP" ⟨"success", none, [], []⟩ rfl rfl rfl).2⟩

set_option maxRecDepth 100000 in
/-- C8: for every inspection record whose `inspection_date` and
`valid_untill` strings are longer than 10 characters, the rendered block
uses only the first 10 characters of each date; in particular, the dates
`2024-03-05T10:00:00Z` and `2025-03-05T10:00:00Z` render as
`2024-03-05 → 2025-03-05`, which appears verbatim in the formatter output
for a successful response containing such a record. -/
theorem C8_date_truncation (i : Nat) (ins : InspectionData)
    (h1 : ins.inspectionDate.length > 10) (h2 : ins.validUntil.length > 10) :
    inspectionBlock i ins =
      "*" ++ toString i ++ ".* " ++ ins.reasonEN ++ " — *" ++ ins.finalResult ++ "*\n" ++
      "   📅 " ++ ins.inspectionDate.take 10 ++ " → " ++ ins.validUntil.take 10 ++ "\n" ++
      "   📍 " ++ ins.region ++ ", " ++ ins.district ++ "\n" ++
      (if ins.remarks ≠ "" then "   📝 " ++ ins.remarks ++ "\n" else "") ++ "\n" ∧
    truncate10 "2024-03-05T10:00:00Z" ++ " → " ++ truncate10 "2025-03-05T10:00:00Z" =
      "2024-03-05 → 2025-03-05" ∧
    "2024-03-05 → 2025-03-05".data <:+: (formatResult "T945CAP" inspRespW).data := by
  refine ⟨?_, by decide, by decide⟩
  unfold inspectionBlock truncate10
  rw [if_pos h1, if_pos h2]

/-- Witness for C8 at the concrete inspection record with ISO-8601
timestamp dates. -/
theorem C8_date_truncation_witness :
    inspW.inspectionDate.length > 10 ∧ inspW.validUntil.length > 10 ∧
    inspectionBlock 1 inspW =
      "*" ++ toString 1 ++ ".* " ++ inspW.reasonEN ++ " — *" ++ inspW.finalResult ++ "*\n" ++
      "   📅 " ++ inspW.inspectionDate.take 10 ++ " → " ++ inspW.validUntil.take 10 ++ "\n" ++
      "   📍 " ++ inspW.region ++ ", " ++ inspW.district ++ "\n" ++
      (if inspW.remarks ≠ "" then "   📝 " ++ inspW.remarks ++ "\n" else "") ++ "\n" :=
  ⟨by decide, by decide,
   (C8_date_truncation 1 inspW (by decide) (by decide)).1⟩

/-- C9: `ParseVehicles` splits its input on commas, trims whitespace from
each segment, drops segments that are empty after trimming, uppercases the
rest and preserves segment order; in particular the input
`" t945cap , T267DFF ,,"` yields exactly `["T945CAP", "T267DFF"]`. -/
theorem C9_parse_vehicles (s : String) :
    parseVehicles s =
      (((splitComma s).map trimSpace).filter (fun v => v != "")).map toUpperStr ∧
    parseVehicles " t945cap , T267DFF ,," = ["T945CAP", "T267DFF"] :=
  ⟨parseLoop_eq (splitComma s), by decide⟩

/-- C10: for a vehicle list with exactly one element, one run of the
scheduled sequencer issues exactly one lookup call — for that element — and
performs no cooldown sleep at all, whatever the lookup and notification
outcomes. -/
theorem C10_single_vehicle_no_sleep (env : Env) (v : String) :
    lookupRegs (checkAllVehicles env [v]) = [v] ∧
    sleepDurations (checkAllVehicles env [v]) = [] := by
  refine ⟨lookupRegs_checkLoop env [v] 0, ?_⟩
  rw [sleepDurations_checkAll]
  rfl

end Rtoc
